import Mathlib

/-!
Shallow embedding of the `onetime` one-time file-sharing server
(`onetime.go`): the token data model, the persisted token store, the
purge operation, the token generator, and the two HTTP handlers
(`Show` for the landing page, `Distribute` for the download), together
with theorems about the token lifecycle they implement.

Modelling conventions:
- Go `time.Time` values are embedded as `Int` seconds since the Unix
  epoch, taken in UTC.  The calendar year of an instant is monotone in
  the instant, and 1971-01-01T00:00:00Z sits at second 31536000
  (365 days of 86400 seconds; 1970 is not a leap year), so the source
  test `t.Year() <= 1970` is embedded as `t < 31536000` and
  `t.Year() > 1970` as `31536000 <= t`.  `time.Unix(0,0)` is `0` and
  `time.Now()` is an explicit `now` parameter.  `a.Sub(b)` compared
  against a duration in seconds becomes integer subtraction `a - b`.
- The Go map `LTokens = map[string]Token` is embedded as the function
  `String → Option Token`; map indexing with the `, ok` form is the
  `Option` match, assignment updates the function at one key, and
  `delete` sets it to `none`.
- The filesystem and the HTTP wire are abstracted to the data the
  handlers read and write: whether the backing file exists is a `Bool`
  argument (`os.Stat` succeeding in `Show`, the file `http.ServeFile`
  opens in `Distribute`), and a response is its status code, its
  `Content-Disposition` header if the handler set one, and which body
  was written.  `http.NotFound` and the missing-file path of
  `http.ServeFile` both write the same `404 page not found` body, which
  `Body.notFound` stands for; `http.ServeFile` sends whatever headers
  were already set on the writer.
- Store persistence (`Save`) is recorded as a `Bool` flag on the
  handler's result together with the saved mapping; `Load` is the store
  argument the handler starts from.
-/

namespace Onetime

/-- A point in time: seconds since the Unix epoch, in UTC. -/
abbrev GoTime := Int

/-- Unix second of 1971-01-01T00:00:00Z.  A UTC instant `t` satisfies
`t.Year() <= 1970` exactly when `t < year1971start`. -/
def year1971start : GoTime := 31536000

/-- `TOKEN_VAL` from `onetime.go`: token validity once clicked,
4*60*60 seconds. -/
def TOKEN_VAL : Int := 4 * 60 * 60

/-- `ONETIME_SZ` from `onetime.go`: length of a one-time token. -/
def ONETIME_SZ : Nat := 8

/-- The formatted branch of `isotime`: the source renders
`%04d-%02d-%02d %02d:%02d:%02d` from the time's calendar fields.  The
embedding keeps the instant inside an opaque tag; no claim depends on
the exact text, only on it being distinct from `"no"`. -/
def isotimeStamp (t : GoTime) : String := "date " ++ toString t

/-- `isotime` from `onetime.go`: returns `"no"` when the year is at
most 1970, otherwise the formatted timestamp. -/
def isotime (t : GoTime) : String :=
  if t < year1971start then "no" else isotimeStamp t

/-- `Token` from `onetime.go`: a served path and creation/activation
times. -/
structure Token where
  path : String
  created : GoTime
  activated : GoTime
deriving Repr, DecidableEq

/-- `LTokens` from `onetime.go`: the token store, a mapping from token
string to `Token`. -/
abbrev LTokens := String → Option Token

/-- The empty store. -/
def LTokens.empty : LTokens := fun _ => none

/-- Store update `ltok[k] = v`. -/
def LTokens.set (ltok : LTokens) (k : String) (v : Token) : LTokens :=
  fun k' => if k' = k then some v else ltok k'

/-- `Del` from `onetime.go`: `delete(ltok, ott)`. -/
def LTokens.Del (ltok : LTokens) (ott : String) : LTokens :=
  fun k' => if k' = ott then none else ltok k'

/-- `Purge` from `onetime.go`: for every entry, delete it when
`isotime(v.Activated) != "no"` and `now.Sub(v.Activated) > TOKEN_VAL`.
The Go loop ranges over the map deleting the entries that match, which
is exactly a filter; `now := time.Now()` is the explicit parameter. -/
def LTokens.Purge (ltok : LTokens) (now : GoTime) : LTokens :=
  fun k =>
    match ltok k with
    | none => none
    | some v =>
      if isotime v.activated ≠ "no" ∧ now - v.activated > TOKEN_VAL then
        none
      else
        some v

/-- The character set of `GenerateOnetime`:
`"1234567890" + "abcdefghijklmnopqrstuvwxyz" + "1234567890"`
(46 bytes; each digit appears twice, each letter once). -/
def letterSet : String :=
  "1234567890" ++ "abcdefghijklmnopqrstuvwxyz" ++ "1234567890"

/-- `GenerateOnetime` from `onetime.go`, with the random bytes made
explicit: the source reads exactly `sz` bytes from `crypto/rand`
(aborting the process on failure), then maps each byte `b` to
`letterSet[b % len(letterSet)]`.  Here `pick` is the list of random
bytes that was read, so the requested length is `pick.length`. -/
def GenerateOnetime (pick : List Nat) : String :=
  String.mk (pick.map fun b => letterSet.toList.getD (b % letterSet.length) ' ')

/-- Which body an HTTP handler wrote. -/
inductive Body where
  /-- The `404 page not found` body, written both by `http.NotFound`
  and by `http.ServeFile` on a missing file. -/
  | notFound
  /-- The contents of the file at `path`, streamed by
  `http.ServeFile`. -/
  | file (path : String)
  /-- The landing page written by `Show`: it embeds the file's base
  name and, when the token is activated, the `Valid until` instant
  `activated + TOKEN_VAL`. -/
  | landing (name : String) (validUntil : Option GoTime)
deriving Repr, DecidableEq

/-- What the requester observes: status code, the
`Content-Disposition` header if the handler set one, and the body. -/
structure HttpResponse where
  status : Nat
  contentDisposition : Option String
  body : Body
deriving Repr, DecidableEq

/-- The response produced by `http.NotFound`. -/
def notFoundResponse : HttpResponse := ⟨404, none, Body.notFound⟩

/-- Go's `path.Base`: `"."` on the empty string, otherwise strip
trailing slashes, keep everything after the last remaining slash, and
return `"/"` when only slashes were present. -/
def pathBase (p : String) : String :=
  if p = "" then "."
  else
    let stripped := p.toList.reverse.dropWhile (fun c => c = '/')
    if stripped = [] then "/"
    else String.mk (stripped.takeWhile (fun c => c ≠ '/')).reverse

/-- The `Content-Disposition` value `Distribute` sets:
`attachment; filename="<base name>"`. -/
def contentDispositionFor (p : String) : String :=
  "attachment; filename=\"" ++ pathBase p ++ "\""

/-- Result of one `Distribute` request: the response, the store the
handler ends with, and whether it called `Save` on it. -/
structure DistributeOut where
  response : HttpResponse
  store : LTokens
  saved : Bool

/-- `Distribute` from `onetime.go`, the download handler for
`GET /d/<token>`.  `reqpath` is the token string after `/d/`, `ltok`
the store `Load` produced, `now` the value of `time.Now()`, and
`fileExists` whether `http.ServeFile` finds `tok.Path`.

Source control flow: unknown token → `http.NotFound`; a token with
`Activated.Year() > 1970` whose activation age exceeds `TOKEN_VAL` →
`http.NotFound`; otherwise the handler overwrites the record with
`Token{tok.Path, tok.Created, time.Now()}`, saves the store, sets the
`Content-Disposition` header, and calls `http.ServeFile`, which streams
the file or writes the not-found body if the file is missing.  The two
nested `if`s of the expiry test are flattened into one conjunction. -/
def Distribute (ltok : LTokens) (reqpath : String) (now : GoTime)
    (fileExists : Bool) : DistributeOut :=
  match ltok reqpath with
  | none => ⟨notFoundResponse, ltok, false⟩
  | some tok =>
    if year1971start ≤ tok.activated ∧ now - tok.activated > TOKEN_VAL then
      ⟨notFoundResponse, ltok, false⟩
    else
      let ltok2 := ltok.set reqpath ⟨tok.path, tok.created, now⟩
      let disp := contentDispositionFor tok.path
      if fileExists then
        ⟨⟨200, some disp, Body.file tok.path⟩, ltok2, true⟩
      else
        ⟨⟨404, some disp, Body.notFound⟩, ltok2, true⟩

/-- `Show` from `onetime.go`, the landing-page handler for
`GET /<token>`.  Unknown token → `http.NotFound`; backing file missing
(`os.Stat` fails) → `http.NotFound`; otherwise the page is written,
with the `Valid until` block present exactly when
`Activated.Year() > 1970`.  `Show` never reads the clock and never
writes the store. -/
def Show (ltok : LTokens) (reqpath : String) (fileExists : Bool) :
    HttpResponse :=
  match ltok reqpath with
  | none => notFoundResponse
  | some tok =>
    if fileExists then
      let validUntil : Option GoTime :=
        if year1971start ≤ tok.activated then
          some (tok.activated + TOKEN_VAL)
        else none
      ⟨200, none, Body.landing (pathBase tok.path) validUntil⟩
    else notFoundResponse

/-- Number of bytes in `0, …, 255` that `GenerateOnetime` maps to the
single character `c`: with a uniformly random source byte, the chance
of producing `c` is this count over 256. -/
def pickCountFor (c : Char) : Nat :=
  (List.range 256).countP (fun b => GenerateOnetime [b] == String.mk [c])

/-- A concrete store used by witnesses and counterexamples: `fresh1`
is never activated (`time.Unix(0,0)` sentinel), `act1` was activated
at second 40000000 (April 1971). -/
def sampleStore : LTokens := fun k =>
  if k = "fresh1" then some ⟨"/tmp/a.txt", 100, 0⟩
  else if k = "act1" then some ⟨"/tmp/b.txt", 200, 40000000⟩
  else none

/-! ### Helper lemmas -/

theorem isotimeStamp_ne_no (t : GoTime) : isotimeStamp t ≠ "no" := by
  intro h
  have hl := congrArg String.length h
  rw [isotimeStamp, String.length_append] at hl
  have h5 : ("date " : String).length = 5 := by decide
  have h2 : ("no" : String).length = 2 := by decide
  omega

theorem isotime_eq_no_iff (t : GoTime) : isotime t = "no" ↔ t < year1971start := by
  unfold isotime
  by_cases h : t < year1971start
  · simp [h]
  · simp [h, isotimeStamp_ne_no t]

theorem isotime_ne_no_iff (t : GoTime) : isotime t ≠ "no" ↔ year1971start ≤ t := by
  rw [Ne, isotime_eq_no_iff, not_lt]

/-! ### Claim theorems -/

/-- C1: the spec says a token's activation timestamp, once set, never
changes: a download of an `Activated` token within the validity window
should serve the file without mutating the record.  The code does the
opposite: at a concrete store whose token `act1` was activated at
second 40000000, a re-download 3600 seconds later (well inside the
4-hour window) serves the file but also overwrites `Activated` with
the new current time and saves the store, so the activation timestamp
is re-stamped on every non-expired download. -/
theorem C1_redownload_restamps_activation :
    sampleStore "act1" = some ⟨"/tmp/b.txt", 200, 40000000⟩ ∧
    year1971start ≤ 40000000 ∧
    (40003600 : Int) - 40000000 ≤ TOKEN_VAL ∧
    (Distribute sampleStore "act1" 40003600 true).response.body
      = Body.file "/tmp/b.txt" ∧
    (Distribute sampleStore "act1" 40003600 true).store "act1"
      = some ⟨"/tmp/b.txt", 200, 40003600⟩ ∧
    (Distribute sampleStore "act1" 40003600 true).saved = true := by
  decide

/-- C2: a download request for a token present in the store whose
activation time is still the unset sentinel (year at most 1970, state
`Fresh`) activates it: the saved store holds the record with
`activated = now`, the store is persisted, and the file is served. -/
theorem C2_fresh_download_activates (ltok : LTokens) (k : String)
    (tok : Token) (now : GoTime) (hlook : ltok k = some tok)
    (hfresh : tok.activated < year1971start) :
    (Distribute ltok k now true).store k = some ⟨tok.path, tok.created, now⟩ ∧
    (Distribute ltok k now true).saved = true ∧
    (Distribute ltok k now true).response
      = ⟨200, some (contentDispositionFor tok.path), Body.file tok.path⟩ := by
  unfold Distribute
  rw [hlook]
  simp only []
  rw [if_neg (by rintro ⟨h1, -⟩; exact absurd h1 (not_le.mpr hfresh))]
  simp [LTokens.set]

/-- C2 witness: the fresh token `fresh1` of the sample store, fetched
at second 50000000, is activated at that instant. -/
theorem C2_witness :
    (Distribute sampleStore "fresh1" 50000000 true).store "fresh1"
      = some ⟨"/tmp/a.txt", 100, 50000000⟩ :=
  (C2_fresh_download_activates sampleStore "fresh1" ⟨"/tmp/a.txt", 100, 0⟩
    50000000 (by decide) (by decide)).1

/-- C3: a download request for a token whose activation time is a real
timestamp (year after 1970) and whose activation age exceeds
`TOKEN_VAL` answers `http.NotFound` and changes nothing: the store the
handler ends with is the one it loaded, and `Save` is not called,
whether or not the backing file exists. -/
theorem C3_expired_not_served (ltok : LTokens) (k : String) (tok : Token)
    (now : GoTime) (fe : Bool) (hlook : ltok k = some tok)
    (hact : year1971start ≤ tok.activated)
    (hexp : now - tok.activated > TOKEN_VAL) :
    (Distribute ltok k now fe).response = notFoundResponse ∧
    (Distribute ltok k now fe).store = ltok ∧
    (Distribute ltok k now fe).saved = false := by
  unfold Distribute
  rw [hlook]
  simp only []
  rw [if_pos ⟨hact, hexp⟩]
  exact ⟨rfl, rfl, rfl⟩

/-- C3 witness: one second past the window, `act1` is refused and the
store is untouched. -/
theorem C3_witness :
    (Distribute sampleStore "act1" 40014401 true).response = notFoundResponse :=
  (C3_expired_not_served sampleStore "act1" ⟨"/tmp/b.txt", 200, 40000000⟩
    40014401 true (by decide) (by decide) (by decide)).1

/-- C4: `Purge` is exactly the removal of the expired records.  After
`ltok.Purge now`, no surviving record has its activation set (the
store's sentinel test `isotime ≠ "no"`, i.e. a year after 1970) with
an activation age beyond `TOKEN_VAL`; and every record the purge
condition does not select — unactivated, or still inside the window —
survives completely untouched, with the same path, creation and
activation times under the same id. -/
theorem C4_purge_correct (ltok : LTokens) (now : GoTime) :
    (∀ k tok, ltok.Purge now k = some tok →
      ¬(isotime tok.activated ≠ "no" ∧ now - tok.activated > TOKEN_VAL)) ∧
    (∀ k tok, ltok k = some tok →
      ¬(isotime tok.activated ≠ "no" ∧ now - tok.activated > TOKEN_VAL) →
      ltok.Purge now k = some tok) := by
  constructor
  · intro k tok hk
    unfold LTokens.Purge at hk
    cases h : ltok k with
    | none => rw [h] at hk; simp at hk
    | some v =>
      rw [h] at hk
      by_cases hc : isotime v.activated ≠ "no" ∧ now - v.activated > TOKEN_VAL
      · simp [hc] at hk
      · simp only [if_neg hc, Option.some.injEq] at hk
        subst hk
        exact hc
  · intro k tok hk hc
    unfold LTokens.Purge
    rw [hk]
    simp [hc]

/-- C4 witness: at second 40014401 the expired `act1` is gone from the
purged sample store while the unactivated `fresh1` survives unchanged. -/
theorem C4_witness :
    sampleStore.Purge 40014401 "fresh1" = some ⟨"/tmp/a.txt", 100, 0⟩ :=
  (C4_purge_correct sampleStore 40014401).2 "fresh1" ⟨"/tmp/a.txt", 100, 0⟩
    (by decide) (by decide)

/-- C5 counterexample: the claimed not-found equivalence fails on the
landing-page route.  At second 40014401 the token `act1` is expired —
the download route refuses it with the not-found response — yet the
landing-page route still serves it a full landing page, visibly
different from the not-found answer an unknown token gets.  Moreover,
even on the download route the missing-file case is distinguishable:
the 404 for the fresh token `fresh1` with a missing backing file
carries the `Content-Disposition` header naming the file, while the
404 for an unknown token has no such header. -/
theorem C5_counterexample :
    (Distribute sampleStore "act1" 40014401 true).response = notFoundResponse ∧
    Show sampleStore "act1" true
      = ⟨200, none, Body.landing "b.txt" (some 40014400)⟩ ∧
    Show sampleStore "act1" true ≠ notFoundResponse ∧
    Show sampleStore "nosuch" true = notFoundResponse ∧
    (Distribute sampleStore "fresh1" 40014401 false).response.contentDisposition
      = some "attachment; filename=\"a.txt\"" ∧
    (Distribute sampleStore "nosuch" 40014401 false).response.contentDisposition
      = none := by
  decide

/-- C5 amended: on the download route, an unknown token, an expired
token and a non-expired token with a missing backing file all receive
status 404 with the same not-found body, and the unknown and expired
responses are fully identical; but the missing-file 404 additionally
carries the attachment `Content-Disposition` header.  On the
landing-page route, an unknown token and a missing backing file both
yield the not-found response, while an expired token is still served
its landing page. -/
theorem C5_amended_notfound_equivalence (ltok : LTokens)
    (kAbs kExp kMiss : String) (tokE tokM : Token) (now : GoTime)
    (hA : ltok kAbs = none)
    (hE : ltok kExp = some tokE)
    (hEa : year1971start ≤ tokE.activated)
    (hEx : now - tokE.activated > TOKEN_VAL)
    (hM : ltok kMiss = some tokM)
    (hMok : ¬(year1971start ≤ tokM.activated ∧ now - tokM.activated > TOKEN_VAL)) :
    ((Distribute ltok kAbs now true).response.status = 404 ∧
     (Distribute ltok kExp now true).response.status = 404 ∧
     (Distribute ltok kMiss now false).response.status = 404) ∧
    ((Distribute ltok kAbs now true).response.body = Body.notFound ∧
     (Distribute ltok kExp now true).response.body = Body.notFound ∧
     (Distribute ltok kMiss now false).response.body = Body.notFound) ∧
    (Distribute ltok kAbs now true).response
      = (Distribute ltok kExp now true).response ∧
    (Distribute ltok kMiss now false).response.contentDisposition
      = some (contentDispositionFor tokM.path) ∧
    Show ltok kAbs true = notFoundResponse ∧
    Show ltok kMiss false = notFoundResponse := by
  have habs : Distribute ltok kAbs now true = ⟨notFoundResponse, ltok, false⟩ := by
    unfold Distribute; rw [hA]
  have hexp : Distribute ltok kExp now true = ⟨notFoundResponse, ltok, false⟩ := by
    unfold Distribute; rw [hE]; simp only []; rw [if_pos ⟨hEa, hEx⟩]
  have hmiss : (Distribute ltok kMiss now false).response
      = ⟨404, some (contentDispositionFor tokM.path), Body.notFound⟩ := by
    unfold Distribute; rw [hM]; simp only []; rw [if_neg hMok]; rfl
  refine ⟨⟨?_, ?_, ?_⟩, ⟨?_, ?_, ?_⟩, ?_, ?_, ?_, ?_⟩
  · rw [habs]; rfl
  · rw [hexp]; rfl
  · rw [hmiss]
  · rw [habs]; rfl
  · rw [hexp]; rfl
  · rw [hmiss]
  · rw [habs, hexp]
  · rw [hmiss]
  · unfold Show; rw [hA]
  · unfold Show; rw [hM]; rfl

/-- C5 amended witness: the three not-found cases at second 40014401
on the sample store, using `nosuch` (absent), `act1` (expired) and
`fresh1` (present but backing file missing). -/
theorem C5_witness :
    (Distribute sampleStore "nosuch" 40014401 true).response
      = (Distribute sampleStore "act1" 40014401 true).response :=
  (C5_amended_notfound_equivalence sampleStore "nosuch" "act1" "fresh1"
    ⟨"/tmp/b.txt", 200, 40000000⟩ ⟨"/tmp/a.txt", 100, 0⟩ 40014401
    (by decide) (by decide) (by decide) (by decide) (by decide)
    (by decide)).2.2.1

/-- C6: a download that serves the file (token present, not expired,
backing file found) preserves the served record's path and creation
time — only the activation field is rewritten — and leaves every other
id in the store exactly as it was. -/
theorem C6_serve_frame (ltok : LTokens) (k : String) (tok : Token)
    (now : GoTime) (hlook : ltok k = some tok)
    (hok : ¬(year1971start ≤ tok.activated ∧ now - tok.activated > TOKEN_VAL)) :
    (Distribute ltok k now true).response.body = Body.file tok.path ∧
    (∃ a, (Distribute ltok k now true).store k
      = some ⟨tok.path, tok.created, a⟩) ∧
    (∀ k2, k2 ≠ k → (Distribute ltok k now true).store k2 = ltok k2) := by
  unfold Distribute
  rw [hlook]
  simp only []
  rw [if_neg hok]
  refine ⟨rfl, ⟨now, ?_⟩, ?_⟩
  · simp [LTokens.set]
  · intro k2 hne
    simp [LTokens.set, hne]

/-- C6 witness: serving `act1` of the sample store within its window
leaves the unrelated record `fresh1` untouched. -/
theorem C6_witness :
    (Distribute sampleStore "act1" 40000100 true).store "fresh1"
      = sampleStore "fresh1" :=
  (C6_serve_frame sampleStore "act1" ⟨"/tmp/b.txt", 200, 40000000⟩
    40000100 (by decide) (by decide)).2.2 "fresh1" (by decide)

/-- C7: purging is idempotent for a fixed current time: a record that
survives one purge fails the removal condition, so a second purge at
the same instant removes nothing further. -/
theorem C7_purge_idempotent (ltok : LTokens) (now : GoTime) :
    (ltok.Purge now).Purge now = ltok.Purge now := by
  funext k
  unfold LTokens.Purge
  cases h : ltok k with
  | none => rfl
  | some v =>
    by_cases hc : isotime v.activated ≠ "no" ∧ now - v.activated > TOKEN_VAL
    · simp [hc]
    · simp [hc]

set_option maxRecDepth 4000 in
/-- C8 counterexample: the characters of `GenerateOnetime` are not
equally likely under uniformly random source bytes.  Both `'1'` and
`'a'` are in the alphabet, but of the 256 byte values, 11 map to the
one-character token `"1"` (the digit occupies two alphabet slots and
picks up the `256 mod 46` wrap-around) while only 6 map to `"a"`. -/
theorem C8_counterexample :
    '1' ∈ letterSet.toList ∧ 'a' ∈ letterSet.toList ∧
    pickCountFor '1' = 11 ∧ pickCountFor 'a' = 6 ∧
    pickCountFor '1' ≠ pickCountFor 'a' := by
  decide

/-- C8 amended: `GenerateOnetime` returns exactly one character per
random source byte (the source reads exactly the requested number of
bytes, aborting otherwise), and every character comes from the fixed
46-slot alphabet `letterSet`; the distribution over characters,
however, is not uniform: digits occupy two slots each and the
remainder `256 mod 46 = 26` biases the first 26 slots. -/
theorem C8_amended_length_alphabet (pick : List Nat) :
    (GenerateOnetime pick).length = pick.length ∧
    ∀ c ∈ (GenerateOnetime pick).toList, c ∈ letterSet.toList := by
  constructor
  · simp [GenerateOnetime]
  · intro c hc
    have hm : c ∈ pick.map
        (fun b => letterSet.toList.getD (b % letterSet.length) ' ') := by
      simpa [GenerateOnetime] using hc
    obtain ⟨b, -, rfl⟩ := List.mem_map.mp hm
    have hlt : b % letterSet.length < letterSet.toList.length := by
      have h46 : letterSet.toList.length = letterSet.length := by decide
      rw [h46]
      exact Nat.mod_lt b (by decide)
    rw [List.getD_eq_getElem letterSet.toList ' ' hlt]
    exact List.getElem_mem hlt

/-- C8 amended witness: two bytes give a two-character token whose
characters are alphabet members. -/
theorem C8_witness :
    (GenerateOnetime [0, 255]).length = ([0, 255] : List Nat).length :=
  (C8_amended_length_alphabet [0, 255]).1

/-- C9: the handler orders its effects so that a missing backing file
is discovered only inside `http.ServeFile`, after the activation stamp,
the `Save`, and the `Content-Disposition` header.  For a token present
in the store and not expired whose file is gone, the response is the
not-found outcome, yet the store has already been mutated — the record
now carries `activated = now` — and persisted, and the attachment
header names the missing file. -/
theorem C9_missing_file_still_mutates (ltok : LTokens) (k : String)
    (tok : Token) (now : GoTime) (hlook : ltok k = some tok)
    (hok : ¬(year1971start ≤ tok.activated ∧ now - tok.activated > TOKEN_VAL)) :
    (Distribute ltok k now false).response.status = 404 ∧
    (Distribute ltok k now false).response.body = Body.notFound ∧
    (Distribute ltok k now false).response.contentDisposition
      = some (contentDispositionFor tok.path) ∧
    (Distribute ltok k now false).saved = true ∧
    (Distribute ltok k now false).store k
      = some ⟨tok.path, tok.created, now⟩ := by
  unfold Distribute
  rw [hlook]
  simp only []
  rw [if_neg hok]
  refine ⟨rfl, rfl, rfl, rfl, ?_⟩
  simp [LTokens.set]

/-- C9 witness: requesting the fresh token `fresh1` at second 50000000
with its backing file missing answers 404 but still stamps and saves
the record. -/
theorem C9_witness :
    (Distribute sampleStore "fresh1" 50000000 false).store "fresh1"
      = some ⟨"/tmp/a.txt", 100, 50000000⟩ :=
  (C9_missing_file_still_mutates sampleStore "fresh1"
    ⟨"/tmp/a.txt", 100, 0⟩ 50000000 (by decide) (by decide)).2.2.2.2

/-- C10: every activation time with year at most 1970 — not only the
exact `time.Unix(0,0)` sentinel — counts as "never activated":
`isotime` renders it `"no"` (which is how the listing displays an
unset activation), `Purge` never removes such a record at any current
time, and the download handler treats it as `Fresh`, serving the file
and re-stamping the activation, no matter how old the record is. -/
theorem C10_pre1971_is_unset (ltok : LTokens) (k : String) (tok : Token)
    (now : GoTime) (hlook : ltok k = some tok)
    (hy : tok.activated < year1971start) :
    isotime tok.activated = "no" ∧
    ltok.Purge now k = some tok ∧
    (Distribute ltok k now true).response.body = Body.file tok.path ∧
    (Distribute ltok k now true).store k
      = some ⟨tok.path, tok.created, now⟩ ∧
    (Distribute ltok k now true).saved = true := by
  have hno : isotime tok.activated = "no" := (isotime_eq_no_iff _).mpr hy
  refine ⟨hno, ?_, ?_⟩
  · unfold LTokens.Purge
    rw [hlook]
    simp [hno]
  · unfold Distribute
    rw [hlook]
    simp only []
    rw [if_neg (by rintro ⟨h1, -⟩; exact absurd h1 (not_le.mpr hy))]
    refine ⟨rfl, ?_, rfl⟩
    simp [LTokens.set]

/-- C10 witness: an activation time of 12345678 (May 1970, far from
the epoch-zero sentinel) is displayed as unset, survives a purge, and
is re-served as fresh. -/
theorem C10_witness : isotime 12345678 = "no" :=
  (C10_pre1971_is_unset
    (fun k => if k = "w" then some ⟨"/tmp/w.bin", 50, 12345678⟩ else none)
    "w" ⟨"/tmp/w.bin", 50, 12345678⟩ 99999999 (by decide) (by decide)).1

end Onetime
